import Mathlib

/-
  Verification development for the x402-langchain repository.

  The embedding models, over exact rational arithmetic:
  - `src/x402_langchain/payment.py` (`X402PaymentHandler`): the budget-checked
    USDC payment handler; the ledger client (web3) is modelled as a record of
    fallible operations (`Chain`), Python exceptions as an explicit sum type.
  - `src/x402_langchain/client.py` (`X402Client._request`): the 402
    payment-retry request executor; the HTTP transport is modelled as the pair
    of responses the server gives to the first and to the retried request, and
    the executor additionally returns the trace of outward calls it performed
    (HTTP requests and payment-handler invocations).

  Python numbers (amounts, budgets) are modelled as rationals, Python sets of
  strings as lists maintained by `List.insert`, Python exceptions as `Except`.
  For the raw-unit conversion, whose subject is numeric exactness, the
  binary64 rounding of the float product is additionally modelled explicitly
  (`roundF64`, `rawOfAmountFloat`).
-/

namespace X402

/-! ## Payment handler (payment.py) -/

/-- USDC_DECIMALS constant of payment.py. -/
def USDC_DECIMALS : Nat := 6

/-- Python `int(q)`: truncation toward zero of a rational. -/
def pyInt (q : ℚ) : ℤ := Int.tdiv q.num q.den

/-- The raw-unit conversion performed by `pay` (payment.py line 178),
`raw_amount = int(amount * (10**USDC_DECIMALS))`, with the product taken over
exact rationals. This is an idealization: Python computes the product in
binary64 floating point, which rounds; `rawOfAmountFloat` below models that
faithfully, and the two can disagree (see the claim C5 theorem). -/
def rawOfAmount (amount : ℚ) : ℤ := pyInt (amount * 10 ^ USDC_DECIMALS)

/-- Round to the nearest integer, ties to even (the rounding IEEE 754 applies
to an exact value expressed at a fixed mantissa scale). -/
def rne (x : ℚ) : ℤ :=
  if x - ⌊x⌋ < 1 / 2 then ⌊x⌋
  else if 1 / 2 < x - ⌊x⌋ then ⌊x⌋ + 1
  else if Even ⌊x⌋ then ⌊x⌋ else ⌊x⌋ + 1

/-- The nearest IEEE binary64 double to an exact rational: the 53-bit mantissa
scale is fixed by the floor base-2 logarithm, and the value is rounded to
nearest at that scale, ties to even. Covers the normal range (no overflow or
subnormal handling), which is ample for the token amounts concerned. -/
def roundF64 (q : ℚ) : ℚ :=
  if q = 0 then 0
  else if q < 0 then
    -((rne (-q / 2 ^ (Int.log 2 (-q) - 52)) : ℚ) * 2 ^ (Int.log 2 (-q) - 52))
  else (rne (q / 2 ^ (Int.log 2 q - 52)) : ℚ) * 2 ^ (Int.log 2 q - 52)

/-- The conversion of payment.py line 178 under Python float semantics: the
amount is the binary64 double nearest to the written decimal value, the
product `amount * (10**USDC_DECIMALS)` is computed in binary64 (one rounding;
`10**6` is exactly representable), and `int()` truncates toward zero. -/
def rawOfAmountFloat (amount : ℚ) : ℤ :=
  pyInt (roundF64 (roundF64 amount * 10 ^ USDC_DECIMALS))

/-- Modelled from the spec section 4.1 ("raw = round(amount * 10^decimals)"):
the conversion as the spec words it, with ordinary rounding. Used only for
comparison with `rawOfAmount`, which is the conversion the code performs. -/
def rawOfAmountSpec (amount : ℚ) : ℤ := round (amount * (10 : ℚ) ^ USDC_DECIMALS)

/-- The backward conversion performed by `get_balance` (payment.py lines
147-154): `raw / (10**USDC_DECIMALS)`, as exact rational division. The chain's
reported raw balance is a parameter. -/
def get_balance (raw : ℤ) : ℚ := (raw : ℚ) / 10 ^ USDC_DECIMALS

/-- The mutable ledger state of one `X402PaymentHandler`:
`_max_budget`, `_total_spent`, `_used_tx_hashes`. -/
structure X402PaymentHandler where
  max_budget : ℚ
  total_spent : ℚ
  used_tx_hashes : List String
  deriving DecidableEq, Repr

/-- The `remaining_budget` property (payment.py lines 142-145):
`max(0.0, self._max_budget - self._total_spent)`. -/
def remaining_budget (st : X402PaymentHandler) : ℚ :=
  max 0 (st.max_budget - st.total_spent)

/-- The error values `pay` can produce, with the data their Python messages
carry: `X402BudgetExceededError` (amount, current spent, remaining budget),
`X402PaymentError` for an on-chain failure (transaction id), and
`X402PaymentError` wrapping an unexpected exception (message, original cause). -/
inductive PayError where
  | budgetExceeded (amount spent remaining : ℚ)
  | transferFailed (txHash : String)
  | transportFailure (message : String) (cause : String)
  deriving DecidableEq, Repr

/-- A Python exception inside `pay`: either an `X402PaymentError` (re-raised
unchanged by the first except clause) or any other exception (wrapped by the
second except clause). -/
inductive PyExc where
  | paymentError (e : PayError)
  | other (msg : String)
  deriving DecidableEq, Repr

/-- The ledger client (web3) as seen by `pay`: each operation either returns a
value or raises an arbitrary exception, modelled by its message. -/
structure Chain where
  getTransactionCount : Except String Nat
  gasPrice : Except String Nat
  maxPriorityFee : Except String Nat
  buildTransaction : String → ℤ → Nat → Nat → Nat → Except String String
  signTransaction : String → Except String String
  sendRawTransaction : String → Except String String
  waitForTransactionReceipt : String → Except String Nat

/-- The body of the `try` block of `pay` (payment.py lines 188-226): nonce
query, fee queries, transaction build, signing, submission, receipt wait, the
receipt status check, and on success the single combined ledger update. A
failing ledger-client step raises an arbitrary (non-`X402PaymentError`)
exception; the failed receipt status check raises an `X402PaymentError`. -/
def tryBody (c : Chain) (st : X402PaymentHandler) (amount : ℚ) (recipient : String) :
    Except PyExc (String × X402PaymentHandler) :=
  match c.getTransactionCount with
  | Except.error m => Except.error (PyExc.other m)
  | Except.ok nonce =>
    match c.gasPrice with
    | Except.error m => Except.error (PyExc.other m)
    | Except.ok gasPrice =>
      match c.maxPriorityFee with
      | Except.error m => Except.error (PyExc.other m)
      | Except.ok priorityFee =>
        match c.buildTransaction recipient (rawOfAmount amount) nonce (2 * gasPrice) priorityFee with
        | Except.error m => Except.error (PyExc.other m)
        | Except.ok tx =>
          match c.signTransaction tx with
          | Except.error m => Except.error (PyExc.other m)
          | Except.ok signed =>
            match c.sendRawTransaction signed with
            | Except.error m => Except.error (PyExc.other m)
            | Except.ok txHex =>
              match c.waitForTransactionReceipt txHex with
              | Except.error m => Except.error (PyExc.other m)
              | Except.ok status =>
                if status ≠ 1 then
                  Except.error (PyExc.paymentError (PayError.transferFailed txHex))
                else
                  Except.ok (txHex,
                    { st with total_spent := st.total_spent + amount,
                              used_tx_hashes := st.used_tx_hashes.insert txHex })

/-- `X402PaymentHandler.pay` (payment.py lines 156-231). Returns the raised
error or the transaction id, together with the post-call ledger state (the
state is unchanged on every error path, since the Python code mutates the
ledger only after the receipt status check). -/
def pay (c : Chain) (st : X402PaymentHandler) (amount : ℚ) (recipient : String) :
    Except PayError String × X402PaymentHandler :=
  if st.total_spent + amount > st.max_budget then
    (Except.error (PayError.budgetExceeded amount st.total_spent (remaining_budget st)), st)
  else
    match tryBody c st amount recipient with
    | Except.ok (txHex, st1) => (Except.ok txHex, st1)
    | Except.error (PyExc.paymentError e) => (Except.error e, st)
    | Except.error (PyExc.other msg) =>
        (Except.error (PayError.transportFailure ("Payment failed: " ++ msg) msg), st)

/-- Run a sequence of `pay` calls, stopping at the first failure: `some` of the
final state when every call in the sequence returns success. -/
def payAll (calls : List (Chain × ℚ × String)) (st : X402PaymentHandler) :
    Option X402PaymentHandler :=
  match calls with
  | [] => some st
  | (c, a, r) :: rest =>
    match pay c st a r with
    | (Except.ok _, st1) => payAll rest st1
    | (Except.error _, _) => none

/-- The sum of the amounts of a sequence of `pay` calls. -/
def sumAmounts (calls : List (Chain × ℚ × String)) : ℚ :=
  (calls.map (fun x => x.2.1)).sum

/-! ## Request executor (client.py) -/

/-- The `payment_details` object of a 402 response body: both fields are
optional string fields of the parsed JSON. -/
structure PaymentDetails where
  amount : Option String
  recipient : Option String
  deriving DecidableEq, Repr

/-- A parsed JSON response body: its optional `payment_details` member, plus
the rest of the document, abstracted as its printed form (used only when the
body is interpolated into an error message or returned to the caller). -/
structure Body where
  payment_details : Option PaymentDetails
  payload : String
  deriving DecidableEq, Repr

/-- An HTTP response: status code, parsed JSON body, raw text. -/
structure Response where
  status_code : Nat
  body : Body
  text : String
  deriving DecidableEq, Repr

/-- The HTTP transport as seen by one `_request` call: the response the server
gives to the first request, and the response it gives to the retried request
carrying the payment headers. -/
structure HttpEnv where
  firstResponse : Response
  retryResponse : Response

/-- The payment handler as seen by the executor: its `pay` operation (which
either raises a `PayError` or returns a transaction id) and its chain name. -/
structure PayOracle where
  payFn : ℚ → String → Except PayError String
  chain : String

/-- The exceptions `_request` can raise: `X402APIError` with its message, the
bare `ValueError` escaping `float(amount_str)` on an unparseable amount string
(the spec's MalformedAmount kind), and an `X402PaymentError` propagated
unchanged from `pay`. -/
inductive ReqError where
  | apiError (msg : String)
  | valueError (badLiteral : String)
  | paymentError (e : PayError)
  deriving DecidableEq, Repr

/-- One outward call made during `_request`: an HTTP request (with or without
the payment proof headers) or an invocation of the payment handler. -/
inductive Event where
  | httpRequest (withPaymentHeaders : Bool)
  | payCall (amount : ℚ) (recipient : String)
  deriving DecidableEq, Repr

/-- Number of payment-handler invocations in a trace. -/
def countPays : List Event → Nat
  | [] => 0
  | Event.payCall _ _ :: t => countPays t + 1
  | _ :: t => countPays t

/-- Number of HTTP requests in a trace. -/
def countHttp : List Event → Nat
  | [] => 0
  | Event.httpRequest _ :: t => countHttp t + 1
  | _ :: t => countHttp t

/-- The message of the `X402APIError` raised on a 402 with no handler. -/
def noHandlerMsg : String :=
  "Endpoint requires payment (HTTP 402) but no private_key was provided. " ++
    "Initialize X402Client with a private_key to enable automatic payments."

/-- The message of the `X402APIError` raised on a 402 with no usable
recipient: interpolates the body, like the Python f-string. -/
def missingRecipientMsg (b : Body) : String :=
  "402 response missing recipient address: " ++ b.payload

/-- The message of the `X402APIError` raised on a status >= 400. -/
def apiErrorMsg (resp : Response) : String :=
  "API error " ++ toString resp.status_code ++ ": " ++ resp.text.take 500

/-- The final status handling of `_request` (client.py lines 138-143):
`X402APIError` on status >= 400, otherwise the parsed body. -/
def statusCheck (resp : Response) : Except ReqError Body :=
  if 400 ≤ resp.status_code then
    Except.error (ReqError.apiError (apiErrorMsg resp))
  else
    Except.ok resp.body

/-- `body.get("payment_details", {})` (client.py line 105): a missing section
behaves as one with both fields absent. -/
def paymentDetailsOf (resp : Response) : PaymentDetails :=
  resp.body.payment_details.getD { amount := none, recipient := none }

/-- `payment_details.get("amount", "0")` (client.py line 106). -/
def amountStrOf (resp : Response) : String :=
  (paymentDetailsOf resp).amount.getD ("0")

/-- `X402Client._request` (client.py lines 65-143). Parameters: the transport
environment, the optional payment handler (`self._payment`), and the number
parser standing for the Python builtin `float`. Returns the raised exception
or the parsed body of the final response, together with the trace of outward
calls. -/
def request (env : HttpEnv) (payment : Option PayOracle) (parse : String → Option ℚ) :
    Except ReqError Body × List Event :=
  if env.firstResponse.status_code = 402 then
    match payment with
    | none => (Except.error (ReqError.apiError noHandlerMsg), [Event.httpRequest false])
    | some p =>
      match (paymentDetailsOf env.firstResponse).recipient with
      | none =>
        (Except.error (ReqError.apiError (missingRecipientMsg env.firstResponse.body)),
          [Event.httpRequest false])
      | some rcpt =>
        if rcpt = "" then
          (Except.error (ReqError.apiError (missingRecipientMsg env.firstResponse.body)),
            [Event.httpRequest false])
        else
          match parse (amountStrOf env.firstResponse) with
          | none =>
            (Except.error (ReqError.valueError (amountStrOf env.firstResponse)),
              [Event.httpRequest false])
          | some amount =>
            match p.payFn amount rcpt with
            | Except.error e =>
              (Except.error (ReqError.paymentError e),
                [Event.httpRequest false, Event.payCall amount rcpt])
            | Except.ok _txHash =>
              (statusCheck env.retryResponse,
                [Event.httpRequest false, Event.payCall amount rcpt,
                  Event.httpRequest true])
  else
    (statusCheck env.firstResponse, [Event.httpRequest false])

/-! ## The Python `float` builtin, for concrete instantiations

The executor calls the builtin `float` on the instruction's amount string;
`_request` above is parameterized over that parser, and `pyFloat` below is a
concrete model of it on finite decimal literals (optional surrounding
whitespace, optional sign, decimal mantissa, optional decimal exponent),
implemented by structural recursion on the character list so that it
evaluates inside the kernel. -/

/-- Value of a list of decimal digit characters. -/
def digitsVal (cs : List Char) : Nat :=
  cs.foldl (fun n c => 10 * n + (c.toNat - 48)) 0

/-- Split a character list at every occurrence of a separator. -/
def splitOnChar (sep : Char) : List Char → List (List Char)
  | [] => [[]]
  | x :: t =>
    match splitOnChar sep t with
    | [] => [[]]
    | h :: r => if x = sep then [] :: h :: r else (x :: h) :: r

/-- Strip leading and trailing whitespace. -/
def trimChars (cs : List Char) : List Char :=
  ((cs.dropWhile Char.isWhitespace).reverse.dropWhile Char.isWhitespace).reverse

/-- Parse the mantissa of a Python float literal: digits with at most one
decimal point and at least one digit. Returns the digit string's value and the
number of fractional digits. -/
def pyMantissa (cs : List Char) : Option (Nat × Nat) :=
  match splitOnChar ('.') cs with
  | [ip] =>
    if 0 < ip.length ∧ ip.all Char.isDigit then some (digitsVal ip, 0) else none
  | [ip, fp] =>
    if ip.length + fp.length = 0 then none
    else if ip.all Char.isDigit ∧ fp.all Char.isDigit then
      some (digitsVal (ip ++ fp), fp.length)
    else none
  | _ => none

/-- Parse the exponent of a Python float literal. -/
def pyExp (cs : List Char) : Option ℤ :=
  let sg : ℤ := if cs.take 1 = ['-'] then -1 else 1
  let u := if cs.take 1 = ['-'] ∨ cs.take 1 = ['+'] then cs.drop 1 else cs
  if 0 < u.length ∧ u.all Char.isDigit then some (sg * digitsVal u) else none

/-- The exact rational `sgn * m * 10 ^ (e - fracLen)`, built with a single
`mkRat` so that it evaluates inside the kernel. -/
def ratOfSci (sgn : ℤ) (m : Nat) (fracLen : Nat) (e : ℤ) : ℚ :=
  let p : ℤ := e - fracLen
  if 0 ≤ p then mkRat (sgn * m * 10 ^ p.toNat) 1
  else mkRat (sgn * m) (10 ^ (-p).toNat)

/-- The Python builtin `float` on finite decimal literals, as an exact
rational; `none` models the `ValueError` raised on an unparseable string. -/
def pyFloat (s : String) : Option ℚ :=
  let t := (trimChars s.data).map fun c => if c = 'E' then 'e' else c
  let sgn : ℤ := if t.take 1 = ['-'] then -1 else 1
  let u := if t.take 1 = ['-'] ∨ t.take 1 = ['+'] then t.drop 1 else t
  match splitOnChar ('e') u with
  | [mant] => (pyMantissa mant).map fun x => ratOfSci sgn x.1 x.2 0
  | [mant, ex] =>
    match pyMantissa mant, pyExp ex with
    | some x, some e => some (ratOfSci sgn x.1 x.2 e)
    | _, _ => none
  | _ => none

/-! ## Concrete fixtures used by the witnesses -/

/-- A ledger client on which every operation succeeds and the receipt reports
success. -/
def okChain : Chain where
  getTransactionCount := Except.ok 7
  gasPrice := Except.ok 3
  maxPriorityFee := Except.ok 2
  buildTransaction := fun _ _ _ _ _ => Except.ok ("txdata")
  signTransaction := fun _ => Except.ok ("signedtx")
  sendRawTransaction := fun _ => Except.ok ("0xaaa")
  waitForTransactionReceipt := fun _ => Except.ok 1

/-- A ledger client whose receipt reports on-chain failure (status 0). -/
def failChain : Chain :=
  { okChain with waitForTransactionReceipt := fun _ => Except.ok 0 }

/-- A ledger client whose nonce query raises. -/
def badChain : Chain :=
  { okChain with getTransactionCount := Except.error ("RPC connection failed") }

/-- A fresh handler state with budget 10. -/
def stFresh : X402PaymentHandler :=
  { max_budget := 10, total_spent := 0, used_tx_hashes := [] }

/-- A handler state that has already spent its whole budget of 1. -/
def stSpent : X402PaymentHandler :=
  { max_budget := 1, total_spent := 1, used_tx_hashes := ["0xbbb"] }

/-! ## Claims about the payment handler -/

/-- Claim C1: a `pay` call whose cumulative spent plus amount exceeds the
budget fails with the budget-exceeded error carrying the amount, the current
spent and the remaining budget; the result is the same for every ledger
client `c` (so neither the ledger client nor the chain is contacted), and the
returned state is the unchanged input state (`cumulativeSpent` and the
confirmed-transaction-id set untouched). -/
theorem pay_budget_exceeded (c : Chain) (st : X402PaymentHandler) (amount : ℚ)
    (recipient : String) (h : st.total_spent + amount > st.max_budget) :
    pay c st amount recipient =
      (Except.error (PayError.budgetExceeded amount st.total_spent (remaining_budget st)), st) := by
  unfold pay
  rw [if_pos h]

/-- Witness for C1: a fresh handler with budget 1 and spent 1 refuses a
payment of 1/2, even on a ledger client on which everything would succeed. -/
theorem pay_budget_exceeded_witness :
    stSpent.total_spent + 1 / 2 > stSpent.max_budget ∧
    pay okChain stSpent (1 / 2) ("0xrecipient") =
      (Except.error
        (PayError.budgetExceeded (1 / 2) stSpent.total_spent (remaining_budget stSpent)),
        stSpent) :=
  ⟨by norm_num [stSpent],
    pay_budget_exceeded okChain stSpent (1 / 2) ("0xrecipient") (by norm_num [stSpent])⟩

/-- Claim C9: for every handler state, `remaining_budget` reports
`max 0 (budget - spent)` and is never negative, including states whose
`total_spent` was mutated out-of-band beyond the budget. -/
theorem remaining_budget_nonneg (st : X402PaymentHandler) :
    remaining_budget st = max 0 (st.max_budget - st.total_spent) ∧
    0 ≤ remaining_budget st :=
  ⟨rfl, le_max_left 0 _⟩

/-- Claim C8: when the budget check passes and the ledger client raises an
arbitrary exception anywhere in the `try` block (nonce query, fee queries,
build, sign, submit or receipt wait), `pay` returns the transport-failure
wrapping of that exception, with the original cause preserved, and the state
unchanged; the raw exception is never propagated (the result type of `pay`
admits only the closed `PayError` set). -/
theorem pay_wraps_ledger_exception (c : Chain) (st : X402PaymentHandler) (amount : ℚ)
    (recipient : String) (msg : String)
    (hb : st.total_spent + amount ≤ st.max_budget)
    (h : tryBody c st amount recipient = Except.error (PyExc.other msg)) :
    pay c st amount recipient =
      (Except.error (PayError.transportFailure ("Payment failed: " ++ msg) msg), st) := by
  unfold pay
  rw [if_neg (not_lt.mpr hb), h]

/-- Witness for C8: a failing nonce query on a fresh handler is reported as a
transport failure wrapping the RPC error. -/
theorem pay_wraps_ledger_exception_witness :
    stFresh.total_spent + 1 / 100 ≤ stFresh.max_budget ∧
    tryBody badChain stFresh (1 / 100) ("0xrecipient") =
      Except.error (PyExc.other ("RPC connection failed")) ∧
    pay badChain stFresh (1 / 100) ("0xrecipient") =
      (Except.error
        (PayError.transportFailure ("Payment failed: " ++ "RPC connection failed")
          ("RPC connection failed")),
        stFresh) :=
  ⟨by norm_num [stFresh], rfl,
    pay_wraps_ledger_exception badChain stFresh (1 / 100) ("0xrecipient")
      ("RPC connection failed") (by norm_num [stFresh]) rfl⟩

/-- Claim C2: with the budget check passed and every ledger-client step
succeeding up to a receipt with status `status`: a non-success status makes
`pay` raise the transfer-failed error carrying the transaction identifier with
the state unchanged, and a success status makes `pay` return the transaction
identifier with, in one step, both `total_spent` increased by the amount and
the identifier recorded in the confirmed set (never one without the other). -/
theorem pay_receipt_status (c : Chain) (st : X402PaymentHandler) (amount : ℚ)
    (recipient : String) (nonce gasPrice priorityFee : Nat) (tx signed txHex : String)
    (status : Nat)
    (hb : st.total_spent + amount ≤ st.max_budget)
    (h1 : c.getTransactionCount = Except.ok nonce)
    (h2 : c.gasPrice = Except.ok gasPrice)
    (h3 : c.maxPriorityFee = Except.ok priorityFee)
    (h4 : c.buildTransaction recipient (rawOfAmount amount) nonce (2 * gasPrice) priorityFee =
      Except.ok tx)
    (h5 : c.signTransaction tx = Except.ok signed)
    (h6 : c.sendRawTransaction signed = Except.ok txHex)
    (h7 : c.waitForTransactionReceipt txHex = Except.ok status) :
    (status ≠ 1 →
      pay c st amount recipient = (Except.error (PayError.transferFailed txHex), st)) ∧
    (status = 1 →
      pay c st amount recipient = (Except.ok txHex,
        { st with total_spent := st.total_spent + amount,
                  used_tx_hashes := st.used_tx_hashes.insert txHex })) := by
  have ht : tryBody c st amount recipient =
      if status ≠ 1 then
        Except.error (PyExc.paymentError (PayError.transferFailed txHex))
      else
        Except.ok (txHex,
          { st with total_spent := st.total_spent + amount,
                    used_tx_hashes := st.used_tx_hashes.insert txHex }) := by
    unfold tryBody
    simp only [h1, h2, h3, h4, h5, h6, h7]
  constructor
  · intro hs
    unfold pay
    rw [if_neg (not_lt.mpr hb), ht, if_pos hs]
  · intro hs
    unfold pay
    rw [if_neg (not_lt.mpr hb), ht, if_neg (by simp [hs])]

/-- Witness for C2: on a ledger client whose receipt has status 0, a payment
of 1/100 from a fresh handler reports the failed transaction id and leaves the
state unchanged. -/
theorem pay_receipt_status_witness :
    stFresh.total_spent + 1 / 100 ≤ stFresh.max_budget ∧
    pay failChain stFresh (1 / 100) ("0xrecipient") =
      (Except.error (PayError.transferFailed ("0xaaa")), stFresh) :=
  ⟨by norm_num [stFresh],
    (pay_receipt_status failChain stFresh (1 / 100) ("0xrecipient") 7 3 2 ("txdata")
      ("signedtx") ("0xaaa") 0 (by norm_num [stFresh]) rfl rfl rfl rfl rfl rfl rfl).1
      (by decide)⟩

/-- Evaluation bridge: `mkRat` as a field division, for computing with
rational literals. -/
lemma mkRat_cast_div (n : ℤ) (d : ℕ) : (mkRat n d : ℚ) = (n : ℚ) / (d : ℚ) := by
  rw [Rat.mkRat_eq_divInt, Rat.divInt_eq_div]
  norm_num

/-- Even over exact arithmetic the conversion of the code is truncation, not
the rounding of the spec: at 9/10^7 (nine tenths of one raw unit) the exact
product trunc-converts to 0 while rounding gives 1. This complements the
binary64 divergence established for claim C5 below. -/
lemma raw_conversion_is_not_round :
    rawOfAmount (9 / 10000000) = 0 ∧ rawOfAmountSpec (9 / 10000000) = 1 ∧
    rawOfAmount (9 / 10000000) ≠ rawOfAmountSpec (9 / 10000000) := by
  have h0 : rawOfAmount (9 / 10000000) = 0 := by
    unfold rawOfAmount
    rw [show (9 / 10000000 : ℚ) * 10 ^ USDC_DECIMALS = mkRat 9 10 by
      rw [mkRat_cast_div]; norm_num [USDC_DECIMALS]]
    decide
  have h1 : rawOfAmountSpec (9 / 10000000) = 1 := by
    unfold rawOfAmountSpec
    norm_num [USDC_DECIMALS, round_eq]
  exact ⟨h0, h1, by rw [h0, h1]; decide⟩

/-- `Int.log 2` is characterized by the enclosing powers of two. -/
lemma int_log_eq {q : ℚ} {l : ℤ} (hq : 0 < q)
    (h1 : (2 : ℚ) ^ l ≤ q) (h2 : q < (2 : ℚ) ^ (l + 1)) :
    Int.log 2 q = l := by
  have ha : ((2 : ℕ) : ℚ) ^ Int.log 2 q ≤ q := Int.zpow_log_le_self (by norm_num) hq
  have hb : q < ((2 : ℕ) : ℚ) ^ (Int.log 2 q + 1) := Int.lt_zpow_succ_log_self (by norm_num) q
  push_cast at ha hb
  have h3 : l < Int.log 2 q + 1 :=
    (zpow_lt_zpow_iff_right₀ (by norm_num : (1 : ℚ) < 2)).mp (lt_of_le_of_lt h1 hb)
  have h4 : Int.log 2 q < l + 1 :=
    (zpow_lt_zpow_iff_right₀ (by norm_num : (1 : ℚ) < 2)).mp (lt_of_le_of_lt ha h2)
  omega

/-- Evaluation rule for `roundF64` on a positive value: exhibiting the
enclosing powers of two and the rounded mantissa determines the result. -/
lemma roundF64_eq_pos {q : ℚ} {l m : ℤ} (hq : 0 < q)
    (h1 : (2 : ℚ) ^ l ≤ q) (h2 : q < (2 : ℚ) ^ (l + 1))
    (hm : rne (q / 2 ^ (l - 52)) = m) :
    roundF64 q = (m : ℚ) * 2 ^ (l - 52) := by
  unfold roundF64
  rw [if_neg hq.ne', if_neg (not_lt.mpr hq.le), int_log_eq hq h1 h2, hm]

/-- Claim C5: evaluation of the code at the failing input 0.000249, a
6-decimal amount. Under Python float semantics (the double nearest to
0.000249 is 4593239274353678/2^64; its binary64 product with 10^6 is
8760908650119167/2^45 = 248.99999999999997) the code's `int()` conversion
yields 248 raw units, while the conversion the claim and the spec prescribe,
`round(amount * 10^6)`, yields 249 (as does the exact-product `int`), and the
round trip through `get_balance` returns 0.000248, not the original amount:
the conversion is not exact at the token's 6-decimal precision. -/
theorem raw_conversion_float_truncation_bug :
    rawOfAmountFloat (249 / 1000000) = 248 ∧
    rawOfAmountSpec (249 / 1000000) = 249 ∧
    rawOfAmount (249 / 1000000) = 249 ∧
    get_balance (rawOfAmountFloat (249 / 1000000)) ≠ 249 / 1000000 := by
  have hd1 : roundF64 (249 / 1000000) = 4593239274353678 * (2 : ℚ) ^ (-(12 : ℤ) - 52) := by
    have hm : rne ((249 / 1000000 : ℚ) / 2 ^ (-(12 : ℤ) - 52)) = 4593239274353678 := by
      have hf : ⌊(249 / 1000000 : ℚ) / 2 ^ (-(12 : ℤ) - 52)⌋ = 4593239274353678 := by
        norm_num
      unfold rne
      rw [hf, if_pos (by norm_num)]
    exact roundF64_eq_pos (l := -12) (by norm_num) (by norm_num) (by norm_num) hm
  have hd2 : roundF64 (4593239274353678 * (2 : ℚ) ^ (-(12 : ℤ) - 52) * 10 ^ USDC_DECIMALS) =
      8760908650119167 * (2 : ℚ) ^ ((7 : ℤ) - 52) := by
    have hm : rne ((4593239274353678 * (2 : ℚ) ^ (-(12 : ℤ) - 52) * 10 ^ USDC_DECIMALS) /
        2 ^ ((7 : ℤ) - 52)) = 8760908650119167 := by
      have hf : ⌊(4593239274353678 * (2 : ℚ) ^ (-(12 : ℤ) - 52) * 10 ^ USDC_DECIMALS) /
          2 ^ ((7 : ℤ) - 52)⌋ = 8760908650119167 := by
        norm_num [USDC_DECIMALS]
      unfold rne
      rw [hf, if_pos (by norm_num [USDC_DECIMALS])]
    exact roundF64_eq_pos (l := 7) (by norm_num [USDC_DECIMALS])
      (by norm_num [USDC_DECIMALS]) (by norm_num [USDC_DECIMALS]) hm
  have hraw : rawOfAmountFloat (249 / 1000000) = 248 := by
    unfold rawOfAmountFloat
    rw [hd1, hd2]
    rw [show (8760908650119167 : ℚ) * (2 : ℚ) ^ ((7 : ℤ) - 52) =
        mkRat 8760908650119167 35184372088832 by rw [mkRat_cast_div]; norm_num]
    decide
  refine ⟨hraw, ?_, ?_, ?_⟩
  · unfold rawOfAmountSpec
    norm_num [USDC_DECIMALS, round_eq]
  · unfold rawOfAmount
    rw [show (249 / 1000000 : ℚ) * 10 ^ USDC_DECIMALS = mkRat 249 1 by
      rw [mkRat_cast_div]; norm_num [USDC_DECIMALS]]
    decide
  · rw [hraw]
    norm_num [get_balance, USDC_DECIMALS]

/-- A successful `tryBody` run performs exactly the single combined ledger
update: spent increased by the amount, transaction id inserted. -/
lemma tryBody_ok {c : Chain} {st st1 : X402PaymentHandler} {amount : ℚ}
    {recipient tx : String} (h : tryBody c st amount recipient = Except.ok (tx, st1)) :
    st1 = { st with total_spent := st.total_spent + amount,
                    used_tx_hashes := st.used_tx_hashes.insert tx } := by
  unfold tryBody at h
  repeat' split at h
  all_goals try simp_all
  all_goals (obtain ⟨rfl, rfl⟩ := h; rfl)

/-- A successful `pay` call passed its budget check and performed exactly the
single combined ledger update. -/
lemma pay_ok_state {c : Chain} {st st1 : X402PaymentHandler} {amount : ℚ}
    {recipient tx : String} (h : pay c st amount recipient = (Except.ok tx, st1)) :
    st.total_spent + amount ≤ st.max_budget ∧
    st1 = { st with total_spent := st.total_spent + amount,
                    used_tx_hashes := st.used_tx_hashes.insert tx } := by
  unfold pay at h
  by_cases hb : st.total_spent + amount > st.max_budget
  · rw [if_pos hb] at h
    simp at h
  · rw [if_neg hb] at h
    refine ⟨not_lt.mp hb, ?_⟩
    rcases htb : tryBody c st amount recipient with e | pr
    · rw [htb] at h
      rcases e with e | m <;> simp at h
    · rw [htb] at h
      obtain ⟨tx2, st2⟩ := pr
      simp at h
      obtain ⟨h1, h2⟩ := h
      subst h1; subst h2
      exact tryBody_ok htb

/-- Invariant of a successful `pay` sequence: the budget is unchanged, the
spent total grows by exactly the sum of the amounts, and a spent total within
budget stays within budget. -/
lemma payAll_inv : ∀ (calls : List (Chain × ℚ × String)) (st stF : X402PaymentHandler),
    payAll calls st = some stF →
    stF.max_budget = st.max_budget ∧
    stF.total_spent = st.total_spent + sumAmounts calls ∧
    (st.total_spent ≤ st.max_budget → stF.total_spent ≤ st.max_budget)
  | [], st, stF, h => by
    simp [payAll] at h
    subst h
    simp [sumAmounts]
  | (c, a, r) :: rest, st, stF, h => by
    simp only [payAll] at h
    rcases hp : pay c st a r with ⟨res, st1⟩
    rw [hp] at h
    rcases res with e | tx
    · simp at h
    · have hok := pay_ok_state hp
      have ih := payAll_inv rest st1 stF h
      rcases hok with ⟨hle, hst1⟩
      refine ⟨?_, ?_, ?_⟩
      · rw [ih.1, hst1]
      · rw [ih.2.1, hst1]
        simp [sumAmounts]
        ring
      · intro _
        have h2 : st1.total_spent ≤ st1.max_budget := by rw [hst1]; exact hle
        have h3 := ih.2.2 h2
        rw [hst1] at h3
        simpa using h3

/-- A successful `pay` sequence succeeds on every prefix. -/
lemma payAll_append : ∀ (pre suf : List (Chain × ℚ × String)) (st stF : X402PaymentHandler),
    payAll (pre ++ suf) st = some stF →
    ∃ stM, payAll pre st = some stM ∧ payAll suf stM = some stF
  | [], suf, st, stF, h => ⟨st, rfl, h⟩
  | (c, a, r) :: pre, suf, st, stF, h => by
    simp only [payAll, List.cons_append] at h ⊢
    rcases hp : pay c st a r with ⟨res, st1⟩
    rw [hp] at h
    rcases res with e | tx
    · simp at h
    · exact payAll_append pre suf st1 stF h

/-- Claim C3: for every sequence of `pay` calls on one handler (fresh ledger,
nonnegative configured budget) that all return success, the final
`total_spent` equals the exact sum of the confirmed amounts, and after every
prefix of the sequence the spent total is within the configured budget. -/
theorem pay_sequence_sum_and_budget (calls : List (Chain × ℚ × String))
    (st0 stF : X402PaymentHandler)
    (hz : st0.total_spent = 0) (hb : 0 ≤ st0.max_budget)
    (h : payAll calls st0 = some stF) :
    stF.total_spent = sumAmounts calls ∧
    ∀ pre suf, calls = pre ++ suf →
      ∃ stM, payAll pre st0 = some stM ∧ stM.total_spent ≤ st0.max_budget := by
  constructor
  · have h1 := (payAll_inv calls st0 stF h).2.1
    rw [hz, zero_add] at h1
    exact h1
  · intro pre suf hps
    rw [hps] at h
    obtain ⟨stM, hM, _⟩ := payAll_append pre suf st0 stF h
    exact ⟨stM, hM, (payAll_inv pre st0 stM hM).2.2 (by rw [hz]; exact hb)⟩

/-- First demo call: pay 1/4 through the all-success ledger client. -/
def demoCall1 : Chain × ℚ × String := (okChain, 1 / 4, "0xr")

/-- Second demo call: pay 1/2 through the all-success ledger client. -/
def demoCall2 : Chain × ℚ × String := (okChain, 1 / 2, "0xr")

/-- The handler state after the two demo calls. -/
def demoStEnd : X402PaymentHandler :=
  { max_budget := 10, total_spent := (0 : ℚ) + 1 / 4 + 1 / 2, used_tx_hashes := ["0xaaa"] }

/-- Evaluation of the first demo call. -/
lemma demo_pay1 : pay okChain stFresh (1 / 4) ("0xr") =
    (Except.ok ("0xaaa"),
      { max_budget := 10, total_spent := (0 : ℚ) + 1 / 4, used_tx_hashes := ["0xaaa"] }) := by
  unfold pay
  rw [if_neg (by norm_num [stFresh])]
  rfl

/-- Evaluation of the second demo call. -/
lemma demo_pay2 : pay okChain
    { max_budget := 10, total_spent := (0 : ℚ) + 1 / 4, used_tx_hashes := ["0xaaa"] }
    (1 / 2) ("0xr") = (Except.ok ("0xaaa"), demoStEnd) := by
  unfold pay
  rw [if_neg (by norm_num)]
  rfl

/-- Evaluation of the demo sequence. -/
lemma demo_payAll : payAll [demoCall1, demoCall2] stFresh = some demoStEnd := by
  simp only [payAll, demoCall1, demoCall2, demo_pay1, demo_pay2]

/-- Witness for C3: two successful payments of 1/4 and 1/2 against budget 10;
the final spent total is their sum, and the state after the first prefix is
within budget. -/
theorem pay_sequence_sum_and_budget_witness :
    stFresh.total_spent = 0 ∧ (0 : ℚ) ≤ stFresh.max_budget ∧
    payAll [demoCall1, demoCall2] stFresh = some demoStEnd ∧
    demoStEnd.total_spent = sumAmounts [demoCall1, demoCall2] ∧
    ∃ stM, payAll [demoCall1] stFresh = some stM ∧ stM.total_spent ≤ stFresh.max_budget := by
  have hmain := pay_sequence_sum_and_budget [demoCall1, demoCall2] stFresh demoStEnd rfl
    (by norm_num [stFresh]) demo_payAll
  exact ⟨rfl, by norm_num [stFresh], demo_payAll, hmain.1,
    hmain.2 [demoCall1] [demoCall2] rfl⟩

/-! ## Claims about the request executor -/

/-- Claim C4: a `_request` call issues at most 2 HTTP requests and invokes the
payment handler at most once, for every transport environment, handler and
amount parser; and whenever the retried request was issued and the server
answered it with 402 again, the call returns the API error for that response
(no second payment, no second retry). -/
theorem request_at_most_one_retry (env : HttpEnv) (payment : Option PayOracle)
    (parse : String → Option ℚ) :
    countHttp (request env payment parse).2 ≤ 2 ∧
    countPays (request env payment parse).2 ≤ 1 ∧
    (Event.httpRequest true ∈ (request env payment parse).2 →
      env.retryResponse.status_code = 402 →
      (request env payment parse).1 =
        Except.error (ReqError.apiError (apiErrorMsg env.retryResponse))) := by
  refine ⟨?_, ?_, ?_⟩ <;>
  · unfold request
    repeat' split
    all_goals simp_all [countHttp, countPays, statusCheck]

/-- Claim C6: on a 402 response with a usable recipient whose amount string
fails to parse, `_request` propagates the `ValueError` from `float` (the
spec's MalformedAmount kind) carrying the bad literal, and the trace contains
no payment-handler invocation: the error is raised before `pay` is called. -/
theorem request_unparseable_amount (env : HttpEnv) (p : PayOracle)
    (parse : String → Option ℚ) (rcpt : String)
    (h402 : env.firstResponse.status_code = 402)
    (hr : (paymentDetailsOf env.firstResponse).recipient = some rcpt)
    (hne : rcpt ≠ "")
    (hp : parse (amountStrOf env.firstResponse) = none) :
    request env (some p) parse =
      (Except.error (ReqError.valueError (amountStrOf env.firstResponse)),
        [Event.httpRequest false]) := by
  simp [request, h402, hr, hne, hp]

/-- Claim C7: on a 402 response whose body lacks a `payment_details` section
or whose section has a missing or empty recipient (`paymentDetailsOf` maps an
absent section to one with both fields absent, as `body.get("payment_details",
{})` does), `_request` raises the `X402APIError` mentioning the missing
recipient, and the trace contains no payment-handler invocation. -/
theorem request_missing_recipient (env : HttpEnv) (p : PayOracle)
    (parse : String → Option ℚ)
    (h402 : env.firstResponse.status_code = 402)
    (hr : (paymentDetailsOf env.firstResponse).recipient = none ∨
          (paymentDetailsOf env.firstResponse).recipient = some "") :
    request env (some p) parse =
      (Except.error (ReqError.apiError (missingRecipientMsg env.firstResponse.body)),
        [Event.httpRequest false]) := by
  rcases hr with h | h <;> simp [request, h402, h]

/-- Claim C10: on a 402 response whose `payment_details` has a recipient but
no amount field, `_request` raises no error for the missing amount: the
amount string defaults to "0", the handler is invoked with amount 0, and the
handler-side conversion of amount 0 is a transfer of 0 raw tokens. -/
theorem request_defaults_missing_amount (env : HttpEnv) (p : PayOracle) (rcpt : String)
    (h402 : env.firstResponse.status_code = 402)
    (hpd : env.firstResponse.body.payment_details =
      some { amount := none, recipient := some rcpt })
    (hne : rcpt ≠ "") :
    Event.payCall 0 rcpt ∈ (request env (some p) pyFloat).2 ∧ rawOfAmount 0 = 0 := by
  have hz : pyFloat ("0") = some 0 := by decide
  have hs : amountStrOf env.firstResponse = "0" := by
    simp [amountStrOf, paymentDetailsOf, hpd]
  constructor
  · rcases hpay : p.payFn 0 rcpt with e | tx <;>
      simp [request, h402, paymentDetailsOf, hpd, hne, hs, hz, hpay]
  · unfold rawOfAmount
    rw [show ((0 : ℚ) * 10 ^ USDC_DECIMALS) = 0 by norm_num]
    decide

/-! ## Fixtures and witnesses for the executor claims -/

/-- A plain 200 response. -/
def okResponse : Response :=
  { status_code := 200, body := { payment_details := none, payload := "OK" }, text := "ok" }

/-- A 402 response with the given `payment_details` section. -/
def resp402 (pd : Option PaymentDetails) : Response :=
  { status_code := 402, body := { payment_details := pd, payload := "BODY" }, text := "pay me" }

/-- A payment handler whose `pay` always confirms. -/
def demoOracle : PayOracle := { payFn := fun _ _ => Except.ok ("0xhash"), chain := "base" }

/-- A server that answers 402 to the first request and again 402 to the
retried request. -/
def env402402 : HttpEnv :=
  { firstResponse := resp402 (some { amount := some "0.001", recipient := some "0xR" }),
    retryResponse := resp402 none }

/-- Witness for C4: against a server that answers 402 twice, the executor
pays once, retries once, and surfaces the second 402 as an API error. -/
theorem request_at_most_one_retry_witness :
    Event.httpRequest true ∈ (request env402402 (some demoOracle) pyFloat).2 ∧
    env402402.retryResponse.status_code = 402 ∧
    countHttp (request env402402 (some demoOracle) pyFloat).2 ≤ 2 ∧
    countPays (request env402402 (some demoOracle) pyFloat).2 ≤ 1 ∧
    (request env402402 (some demoOracle) pyFloat).1 =
      Except.error (ReqError.apiError (apiErrorMsg env402402.retryResponse)) := by
  have hmem : Event.httpRequest true ∈ (request env402402 (some demoOracle) pyFloat).2 := by
    decide
  have h := request_at_most_one_retry env402402 (some demoOracle) pyFloat
  exact ⟨hmem, rfl, h.1, h.2.1, h.2.2 hmem rfl⟩

/-- A 402 response whose amount string is unparseable. -/
def envBadAmount : HttpEnv :=
  { firstResponse := resp402 (some { amount := some "invalid", recipient := some "0xR" }),
    retryResponse := okResponse }

/-- Witness for C6: the amount string "invalid" produces the ValueError with
no payment-handler invocation in the trace. -/
theorem request_unparseable_amount_witness :
    envBadAmount.firstResponse.status_code = 402 ∧
    (paymentDetailsOf envBadAmount.firstResponse).recipient = some "0xR" ∧
    ("0xR" : String) ≠ "" ∧
    pyFloat (amountStrOf envBadAmount.firstResponse) = none ∧
    request envBadAmount (some demoOracle) pyFloat =
      (Except.error (ReqError.valueError (amountStrOf envBadAmount.firstResponse)),
        [Event.httpRequest false]) :=
  ⟨rfl, rfl, by decide, by decide,
    request_unparseable_amount envBadAmount demoOracle pyFloat ("0xR") rfl rfl
      (by decide) (by decide)⟩

/-- A 402 response with no `payment_details` section at all. -/
def envNoRecipient : HttpEnv :=
  { firstResponse := resp402 none, retryResponse := okResponse }

/-- Witness for C7: a 402 body without a `payment_details` section produces
the missing-recipient API error with no payment-handler invocation. -/
theorem request_missing_recipient_witness :
    envNoRecipient.firstResponse.status_code = 402 ∧
    (paymentDetailsOf envNoRecipient.firstResponse).recipient = none ∧
    request envNoRecipient (some demoOracle) pyFloat =
      (Except.error
        (ReqError.apiError (missingRecipientMsg envNoRecipient.firstResponse.body)),
        [Event.httpRequest false]) :=
  ⟨rfl, rfl,
    request_missing_recipient envNoRecipient demoOracle pyFloat rfl (Or.inl rfl)⟩

/-- A 402 response with a recipient but no amount field. -/
def envNoAmount : HttpEnv :=
  { firstResponse := resp402 (some { amount := none, recipient := some "0xR" }),
    retryResponse := okResponse }

/-- Witness for C10: with a recipient and no amount field the handler is
invoked with amount 0. -/
theorem request_defaults_missing_amount_witness :
    envNoAmount.firstResponse.body.payment_details =
      some { amount := none, recipient := some "0xR" } ∧
    Event.payCall 0 ("0xR") ∈ (request envNoAmount (some demoOracle) pyFloat).2 ∧
    rawOfAmount 0 = 0 :=
  ⟨rfl,
    (request_defaults_missing_amount envNoAmount demoOracle ("0xR") rfl rfl (by decide)).1,
    (request_defaults_missing_amount envNoAmount demoOracle ("0xR") rfl rfl (by decide)).2⟩

end X402
